import Mathlib

/-!
Shallow embedding of `src/types/institution.rs` from the `plaid` Rust client:
the institution-lookup request/response schema, its serde-derived JSON
(de)serialization, and the custom `serialize_options` adapter.

The JSON wire format is modelled by an inductive `Json` whose objects are
ordered lists of key/value pairs (matching a streaming serializer, which can
emit a key more than once).  Serde's derived `Deserialize` is modelled as a
visitor that walks the entries in order, errors on a duplicate known field,
ignores unknown fields, and finally checks mandatory fields in declaration
order.  Decode errors carry the information serde_json's errors do.
-/

namespace PlaidInstitution

/-- Modelled from the spec: `CountryCode` comes from the crate root, which is
not part of the supplied source.  Per the spec it is an opaque validated
ISO-3166-1 alpha-2 code carried as a two-letter string on the wire. -/
structure CountryCode where
  code : String
deriving Repr, DecidableEq

/-- Modelled from the spec: `Secret` comes from the crate root, which is not
part of the supplied source.  Per the spec it is an opaque secret credential
that this module only carries; on the wire it is its underlying string. -/
structure Secret where
  value : String
deriving Repr, DecidableEq

/-- JSON values.  An object is an ordered list of key/value entries, so a
streamed serialization that emits the same key twice is representable. -/
inductive Json where
  | null : Json
  | bool (b : Bool) : Json
  | num (n : Int) : Json
  | str (s : String) : Json
  | arr (elems : List Json) : Json
  | obj (entries : List (String × Json)) : Json
deriving Repr

/-- `InstitutionOption`: the closed enum of request options
(`#[serde(rename_all = "snake_case")]`). -/
inductive InstitutionOption where
  | includeOptionalMetadata : InstitutionOption
  | includeStatus : InstitutionOption
deriving Repr, DecidableEq

/-- The wire name of an `InstitutionOption` variant: serde's
`rename_all = "snake_case"` turns the variant name into lower snake case. -/
def institutionOptionWireName : InstitutionOption → String
  | .includeOptionalMetadata => "include_optional_metadata"
  | .includeStatus => "include_status"

/-- The `Institution` struct: fields in declaration order. -/
structure Institution where
  institution_id : String
  name : String
  products : List String
  country_codes : List CountryCode
  url : Option String
  primary_color : Option String
  logo : Option String
  routing_numbers : List String
  oauth : Bool
deriving Repr, DecidableEq

/-- The `ListInstitutionsResponse` struct (`institutions` has
`#[serde(default)]`). -/
structure ListInstitutionsResponse where
  institutions : List Institution
  request_id : String
deriving Repr, DecidableEq

/-- The `GetInstitutionResponse` struct. -/
structure GetInstitutionResponse where
  institution : Institution
  request_id : String
deriving Repr, DecidableEq

/-- The `GetInstitutionRequest` struct. -/
structure GetInstitutionRequest where
  institution_id : String
  client_id : String
  secret : Secret
  country_codes : List CountryCode
  options : List InstitutionOption
deriving Repr, DecidableEq

/-! ## Accessors

Rust accessors take `&self` and return `self.field.clone()`.  Each accessor
is modelled as a call returning the pair (returned copy, receiver after the
call), so that both the returned value and the absence of any effect on the
receiver are visible in the model. -/

/-- `Institution::id`: returns `self.institution_id.clone()`. -/
def Institution.idCall (i : Institution) : String × Institution :=
  (i.institution_id, i)

/-- `Institution::name`: returns `self.name.clone()`. -/
def Institution.nameCall (i : Institution) : String × Institution :=
  (i.name, i)

/-- `Institution::logo`: returns `self.logo.clone()`. -/
def Institution.logoCall (i : Institution) : Option String × Institution :=
  (i.logo, i)

/-- `Institution::url`: returns `self.url.clone()`. -/
def Institution.urlCall (i : Institution) : Option String × Institution :=
  (i.url, i)

/-- `GetInstitutionResponse::institution`: returns `self.institution.clone()`. -/
def GetInstitutionResponse.institutionCall (r : GetInstitutionResponse) :
    Institution × GetInstitutionResponse :=
  (r.institution, r)

/-- `GetInstitutionResponse::request_id`: returns `self.request_id.clone()`. -/
def GetInstitutionResponse.requestIdCall (r : GetInstitutionResponse) :
    String × GetInstitutionResponse :=
  (r.request_id, r)

/-! ## The `serialize_options` adapter

`serialize_options` is generic over the serde `Serializer`.  What it uses of
a serializer is `serialize_map`, `serialize_entry` on the resulting map
builder, and `end`; that interface is modelled by `MapSer`.  `serialize_entry`
mutates the builder and returns a `Result<(), Err>`; here it returns the new
builder state together with that result. -/

structure MapSer where
  St : Type
  Err : Type
  Res : Type
  serializeMap : Nat → Except Err St
  serializeEntry : St → InstitutionOption → Bool → St × Except Err Unit
  endMap : St → Except Err Res

/-- The `for option in x` loop body of `serialize_options`: each entry's
`Result` is bound to `_` and discarded, the loop always continues. -/
def serializeOptionsLoop (M : MapSer) : M.St → List InstitutionOption → M.St
  | map, [] => map
  | map, option :: rest =>
    let r := M.serializeEntry map option true
    let _ := r.2
    serializeOptionsLoop M r.1 rest

/-- `serialize_options`: starts a map sized to the list, serializes each
option as an entry `option ↦ true` (discarding the per-entry result), and
returns `map.end()`. -/
def serialize_options (M : MapSer) (x : List InstitutionOption) :
    Except M.Err M.Res :=
  match M.serializeMap x.length with
  | .error e => .error e
  | .ok map => M.endMap (serializeOptionsLoop M map x)

/-- The JSON serializer's map interface: the builder is the accumulated entry
list (in insertion order, duplicates kept, as a streaming serializer emits
them); a unit enum variant used as a key serializes to its wire name, which is
a string, so entries never fail. -/
def jsonMapSer : MapSer where
  St := List (String × Json)
  Err := String
  Res := Json
  serializeMap := fun _ => .ok []
  serializeEntry := fun map option b =>
    (map ++ [(institutionOptionWireName option, Json.bool b)], .ok ())
  endMap := fun map => .ok (Json.obj map)

/-- Serialization of `Option<String>`: `Some s` to a string, `None` to null. -/
def serializeOptString : Option String → Json
  | none => .null
  | some s => .str s

/-- Derived `Serialize` for `Institution`: a JSON object with one entry per
field, in declaration order. -/
def serializeInstitution (i : Institution) : Json :=
  .obj [("institution_id", .str i.institution_id),
        ("name", .str i.name),
        ("products", .arr (i.products.map Json.str)),
        ("country_codes", .arr (i.country_codes.map fun c => Json.str c.code)),
        ("url", serializeOptString i.url),
        ("primary_color", serializeOptString i.primary_color),
        ("logo", serializeOptString i.logo),
        ("routing_numbers", .arr (i.routing_numbers.map Json.str)),
        ("oauth", .bool i.oauth)]

/-- Derived `Serialize` for `GetInstitutionRequest`: field-by-field, except
`options`, which goes through `serialize_options`
(`#[serde(serialize_with = "serialize_options")]`); an error from the field
serializer aborts the whole struct serialization. -/
def serializeGetInstitutionRequest (r : GetInstitutionRequest) :
    Except String Json :=
  match serialize_options jsonMapSer r.options with
  | .error e => .error e
  | .ok opts =>
    .ok (.obj [("institution_id", .str r.institution_id),
               ("client_id", .str r.client_id),
               ("secret", .str r.secret.value),
               ("country_codes",
                .arr (r.country_codes.map fun c => Json.str c.code)),
               ("options", opts)])

/-- First entry of an object with the given key, if any. -/
def lookupField : List (String × Json) → String → Option Json
  | [], _ => none
  | (k, v) :: rest, key => if k == key then some v else lookupField rest key

/-- Field access on a JSON value: defined on objects only. -/
def Json.getField : Json → String → Option Json
  | .obj entries, key => lookupField entries key
  | _, _ => none

/-- Whether a JSON value is an object that has an entry with the given key. -/
def Json.hasKey : Json → String → Bool
  | .obj entries, key => entries.any (fun kv => kv.1 == key)
  | _, _ => false

/-! ## Decoding

`ListInstitutionsResponse`, `GetInstitutionResponse` and `Institution` derive
`Deserialize`.  The generated code visits the payload's entries in order,
fills one slot per known field (duplicate known field is an error, unknown
fields are ignored), and finally checks the slots in field-declaration order:
a mandatory field still empty is a `missing field` error, a
`#[serde(default)]` field defaults, and an `Option` field defaults to `None`. -/

/-- Decode errors, carrying what serde_json's corresponding errors carry. -/
inductive DecodeError where
  | missingField (field : String) : DecodeError
  | duplicateField (field : String) : DecodeError
  | invalidType (unexpected : String) (expected : String) : DecodeError
deriving Repr, DecidableEq

/-- The error message serde_json renders for each decode error. -/
def DecodeError.message : DecodeError → String
  | .missingField f => "missing field `" ++ f ++ "`"
  | .duplicateField f => "duplicate field `" ++ f ++ "`"
  | .invalidType u e => "invalid type: " ++ u ++ ", expected " ++ e

/-- serde_json's description of an unexpected value, used in
`invalid type` messages. -/
def unexpectedDesc : Json → String
  | .null => "null"
  | .bool true => "boolean `true`"
  | .bool false => "boolean `false`"
  | .num n => "integer `" ++ toString n ++ "`"
  | .str s => "string \"" ++ s ++ "\""
  | .arr _ => "sequence"
  | .obj _ => "map"

/-- Decode a JSON value as a `String`. -/
def decodeString : Json → Except DecodeError String
  | .str s => .ok s
  | j => .error (.invalidType (unexpectedDesc j) "a string")

/-- Decode a JSON value as a `bool`. -/
def decodeBool : Json → Except DecodeError Bool
  | .bool b => .ok b
  | j => .error (.invalidType (unexpectedDesc j) "a boolean")

/-- Decode a JSON value as an `Option<String>`: null is `None`. -/
def decodeOptString : Json → Except DecodeError (Option String)
  | .null => .ok none
  | .str s => .ok (some s)
  | j => .error (.invalidType (unexpectedDesc j) "option")

/-- Decode a JSON value as a `CountryCode` (an opaque validated string per
the spec's description of the shared primitive). -/
def decodeCountryCode : Json → Except DecodeError CountryCode
  | .str s => .ok ⟨s⟩
  | j => .error (.invalidType (unexpectedDesc j) "a country code string")

/-- Decode a list of JSON values as the elements of a `Vec<String>`. -/
def decodeStringElems : List Json → Except DecodeError (List String)
  | [] => .ok []
  | j :: rest =>
    match decodeString j with
    | .error e => .error e
    | .ok s =>
      match decodeStringElems rest with
      | .error e => .error e
      | .ok l => .ok (s :: l)

/-- Decode a JSON value as a `Vec<String>`. -/
def decodeStringList : Json → Except DecodeError (List String)
  | .arr elems => decodeStringElems elems
  | j => .error (.invalidType (unexpectedDesc j) "a sequence")

/-- Decode a list of JSON values as the elements of a `Vec<CountryCode>`. -/
def decodeCountryCodeElems : List Json → Except DecodeError (List CountryCode)
  | [] => .ok []
  | j :: rest =>
    match decodeCountryCode j with
    | .error e => .error e
    | .ok c =>
      match decodeCountryCodeElems rest with
      | .error e => .error e
      | .ok l => .ok (c :: l)

/-- Decode a JSON value as a `Vec<CountryCode>`. -/
def decodeCountryCodeList : Json → Except DecodeError (List CountryCode)
  | .arr elems => decodeCountryCodeElems elems
  | j => .error (.invalidType (unexpectedDesc j) "a sequence")

/-- Field slots for the `Institution` visitor. -/
structure InstSlots where
  institution_id : Option String
  name : Option String
  products : Option (List String)
  country_codes : Option (List CountryCode)
  url : Option (Option String)
  primary_color : Option (Option String)
  logo : Option (Option String)
  routing_numbers : Option (List String)
  oauth : Option Bool
deriving Repr

/-- The all-empty `Institution` slot state. -/
def InstSlots.init : InstSlots :=
  ⟨none, none, none, none, none, none, none, none, none⟩

/-- The `Institution` visitor loop: one payload entry at a time. -/
def instVisit : InstSlots → List (String × Json) →
    Except DecodeError InstSlots
  | st, [] => .ok st
  | st, (k, v) :: rest =>
    if k == "institution_id" then
      match st.institution_id with
      | some _ => .error (.duplicateField "institution_id")
      | none =>
        match decodeString v with
        | .error e => .error e
        | .ok s => instVisit { st with institution_id := some s } rest
    else if k == "name" then
      match st.name with
      | some _ => .error (.duplicateField "name")
      | none =>
        match decodeString v with
        | .error e => .error e
        | .ok s => instVisit { st with name := some s } rest
    else if k == "products" then
      match st.products with
      | some _ => .error (.duplicateField "products")
      | none =>
        match decodeStringList v with
        | .error e => .error e
        | .ok l => instVisit { st with products := some l } rest
    else if k == "country_codes" then
      match st.country_codes with
      | some _ => .error (.duplicateField "country_codes")
      | none =>
        match decodeCountryCodeList v with
        | .error e => .error e
        | .ok l => instVisit { st with country_codes := some l } rest
    else if k == "url" then
      match st.url with
      | some _ => .error (.duplicateField "url")
      | none =>
        match decodeOptString v with
        | .error e => .error e
        | .ok o => instVisit { st with url := some o } rest
    else if k == "primary_color" then
      match st.primary_color with
      | some _ => .error (.duplicateField "primary_color")
      | none =>
        match decodeOptString v with
        | .error e => .error e
        | .ok o => instVisit { st with primary_color := some o } rest
    else if k == "logo" then
      match st.logo with
      | some _ => .error (.duplicateField "logo")
      | none =>
        match decodeOptString v with
        | .error e => .error e
        | .ok o => instVisit { st with logo := some o } rest
    else if k == "routing_numbers" then
      match st.routing_numbers with
      | some _ => .error (.duplicateField "routing_numbers")
      | none =>
        match decodeStringList v with
        | .error e => .error e
        | .ok l => instVisit { st with routing_numbers := some l } rest
    else if k == "oauth" then
      match st.oauth with
      | some _ => .error (.duplicateField "oauth")
      | none =>
        match decodeBool v with
        | .error e => .error e
        | .ok b => instVisit { st with oauth := some b } rest
    else
      instVisit st rest

/-- Finish the `Institution` visitor: mandatory fields are checked in
declaration order; the `Option` fields default to `None` when absent. -/
def instFinish (st : InstSlots) : Except DecodeError Institution :=
  match st.institution_id with
  | none => .error (.missingField "institution_id")
  | some institution_id =>
    match st.name with
    | none => .error (.missingField "name")
    | some name =>
      match st.products with
      | none => .error (.missingField "products")
      | some products =>
        match st.country_codes with
        | none => .error (.missingField "country_codes")
        | some country_codes =>
          match st.routing_numbers with
          | none => .error (.missingField "routing_numbers")
          | some routing_numbers =>
            match st.oauth with
            | none => .error (.missingField "oauth")
            | some oauth =>
              .ok ⟨institution_id, name, products, country_codes,
                   st.url.getD none, st.primary_color.getD none,
                   st.logo.getD none, routing_numbers, oauth⟩

/-- Derived `Deserialize` for `Institution`. -/
def decodeInstitution : Json → Except DecodeError Institution
  | .obj entries =>
    match instVisit InstSlots.init entries with
    | .error e => .error e
    | .ok st => instFinish st
  | j => .error (.invalidType (unexpectedDesc j) "struct Institution")

/-- Decode a list of JSON values as the elements of a `Vec<Institution>`. -/
def decodeInstitutionElems : List Json → Except DecodeError (List Institution)
  | [] => .ok []
  | j :: rest =>
    match decodeInstitution j with
    | .error e => .error e
    | .ok i =>
      match decodeInstitutionElems rest with
      | .error e => .error e
      | .ok l => .ok (i :: l)

/-- Decode a JSON value as a `Vec<Institution>`. -/
def decodeInstitutionList : Json → Except DecodeError (List Institution)
  | .arr elems => decodeInstitutionElems elems
  | j => .error (.invalidType (unexpectedDesc j) "a sequence")

/-- Field slots for the `ListInstitutionsResponse` visitor. -/
structure ListRespSlots where
  institutions : Option (List Institution)
  request_id : Option String
deriving Repr

/-- The `ListInstitutionsResponse` visitor loop. -/
def listRespVisit : ListRespSlots → List (String × Json) →
    Except DecodeError ListRespSlots
  | st, [] => .ok st
  | st, (k, v) :: rest =>
    if k == "institutions" then
      match st.institutions with
      | some _ => .error (.duplicateField "institutions")
      | none =>
        match decodeInstitutionList v with
        | .error e => .error e
        | .ok l => listRespVisit { st with institutions := some l } rest
    else if k == "request_id" then
      match st.request_id with
      | some _ => .error (.duplicateField "request_id")
      | none =>
        match decodeString v with
        | .error e => .error e
        | .ok s => listRespVisit { st with request_id := some s } rest
    else
      listRespVisit st rest

/-- Derived `Deserialize` for `ListInstitutionsResponse`: `institutions` has
`#[serde(default)]`, so an empty slot defaults to the empty list;
`request_id` is mandatory. -/
def decodeListInstitutionsResponse : Json →
    Except DecodeError ListInstitutionsResponse
  | .obj entries =>
    match listRespVisit ⟨none, none⟩ entries with
    | .error e => .error e
    | .ok st =>
      match st.request_id with
      | none => .error (.missingField "request_id")
      | some request_id => .ok ⟨st.institutions.getD [], request_id⟩
  | j =>
    .error (.invalidType (unexpectedDesc j) "struct ListInstitutionsResponse")

/-- Field slots for the `GetInstitutionResponse` visitor. -/
structure GetRespSlots where
  institution : Option Institution
  request_id : Option String
deriving Repr

/-- The `GetInstitutionResponse` visitor loop. -/
def getRespVisit : GetRespSlots → List (String × Json) →
    Except DecodeError GetRespSlots
  | st, [] => .ok st
  | st, (k, v) :: rest =>
    if k == "institution" then
      match st.institution with
      | some _ => .error (.duplicateField "institution")
      | none =>
        match decodeInstitution v with
        | .error e => .error e
        | .ok i => getRespVisit { st with institution := some i } rest
    else if k == "request_id" then
      match st.request_id with
      | some _ => .error (.duplicateField "request_id")
      | none =>
        match decodeString v with
        | .error e => .error e
        | .ok s => getRespVisit { st with request_id := some s } rest
    else
      getRespVisit st rest

/-- Derived `Deserialize` for `GetInstitutionResponse`: both `institution`
and `request_id` are mandatory, checked in declaration order. -/
def decodeGetInstitutionResponse : Json →
    Except DecodeError GetInstitutionResponse
  | .obj entries =>
    match getRespVisit ⟨none, none⟩ entries with
    | .error e => .error e
    | .ok st =>
      match st.institution with
      | none => .error (.missingField "institution")
      | some institution =>
        match st.request_id with
        | none => .error (.missingField "request_id")
        | some request_id => .ok ⟨institution, request_id⟩
  | j =>
    .error (.invalidType (unexpectedDesc j) "struct GetInstitutionResponse")

/-- Substring test used to state what a decode error's message mentions. -/
def charsArePre : List Char → List Char → Bool
  | [], _ => true
  | _ :: _, [] => false
  | a :: as, b :: bs => a == b && charsArePre as bs

/-- Whether `pat` occurs somewhere in `l`. -/
def charsContain (pat : List Char) : List Char → Bool
  | [] => charsArePre pat []
  | c :: rest => charsArePre pat (c :: rest) || charsContain pat rest

/-- Whether string `s` contains `pat` as a substring. -/
def strContains (s pat : String) : Bool :=
  charsContain pat.data s.data

/-- A map serializer whose `serialize_entry` always fails (while still
advancing its builder state, a counter of attempted entries): exercises
`serialize_options` on failing entries. -/
def natCountSer : MapSer where
  St := Nat
  Err := String
  Res := Nat
  serializeMap := fun _ => .ok 0
  serializeEntry := fun st _ _ => (st + 1, .error "entry failed")
  endMap := fun st => .ok st

/-- The example institution payload from the spec's end-to-end example. -/
def examplePayload : Json :=
  .obj [("institution",
         .obj [("institution_id", .str "ins_1"),
               ("name", .str "Bank A"),
               ("products", .arr [.str "auth"]),
               ("country_codes", .arr [.str "US"]),
               ("url", .null),
               ("primary_color", .null),
               ("logo", .null),
               ("routing_numbers", .arr []),
               ("oauth", .bool false)]),
        ("request_id", .str "req_1")]

/-! ## Lemmas about the JSON instantiation of `serialize_options` -/

theorem jsonMapSer_serializeMap (n : Nat) :
    jsonMapSer.serializeMap n = .ok ([] : List (String × Json)) := rfl

theorem jsonMapSer_serializeEntry (map : List (String × Json))
    (o : InstitutionOption) (b : Bool) :
    jsonMapSer.serializeEntry map o b =
      (map ++ [(institutionOptionWireName o, Json.bool b)], .ok ()) := rfl

theorem jsonMapSer_endMap (map : List (String × Json)) :
    jsonMapSer.endMap map = .ok (Json.obj map) := rfl

theorem serializeOptionsLoop_json (x : List InstitutionOption) :
    ∀ map : List (String × Json), serializeOptionsLoop jsonMapSer map x =
      map ++ x.map (fun o => (institutionOptionWireName o, Json.bool true)) := by
  induction x with
  | nil => intro map; simp [serializeOptionsLoop]
  | cons o rest ih =>
    intro map
    simp [serializeOptionsLoop, jsonMapSer_serializeEntry, ih]

theorem serialize_options_json (x : List InstitutionOption) :
    serialize_options jsonMapSer x =
      .ok (Json.obj
        (x.map (fun o => (institutionOptionWireName o, Json.bool true)))) := by
  have h := serializeOptionsLoop_json x []
  simp only [List.nil_append] at h
  simp [serialize_options, jsonMapSer_serializeMap, jsonMapSer_endMap, h]

theorem serializeGetInstitutionRequest_eq (r : GetInstitutionRequest) :
    serializeGetInstitutionRequest r =
      .ok (.obj [("institution_id", .str r.institution_id),
                 ("client_id", .str r.client_id),
                 ("secret", .str r.secret.value),
                 ("country_codes",
                  .arr (r.country_codes.map fun c => Json.str c.code)),
                 ("options",
                  .obj (r.options.map
                    fun o => (institutionOptionWireName o, Json.bool true)))]) := by
  simp [serializeGetInstitutionRequest, serialize_options_json]

/-- C1: serializing a `GetInstitutionRequest` whose options list is exactly
`[IncludeOptionalMetadata]` encodes the options field as the JSON object
with the single entry `"include_optional_metadata" ↦ true`; the absent
`IncludeStatus` option contributes no key at all. -/
theorem options_singleton_serializes_to_flag_map (r : GetInstitutionRequest)
    (h : r.options = [InstitutionOption.includeOptionalMetadata]) :
    ∃ j, serializeGetInstitutionRequest r = .ok j ∧
      j.getField "options" =
        some (Json.obj [("include_optional_metadata", Json.bool true)]) := by
  refine ⟨_, serializeGetInstitutionRequest_eq r, ?_⟩
  simp [Json.getField, lookupField, h, institutionOptionWireName]

theorem options_singleton_serializes_to_flag_map_witness :
    (GetInstitutionRequest.mk "ins_1" "client" ⟨"sec"⟩ [⟨"US"⟩]
        [InstitutionOption.includeOptionalMetadata]).options =
      [InstitutionOption.includeOptionalMetadata] ∧
    ∃ j, serializeGetInstitutionRequest
        (GetInstitutionRequest.mk "ins_1" "client" ⟨"sec"⟩ [⟨"US"⟩]
          [InstitutionOption.includeOptionalMetadata]) = .ok j ∧
      j.getField "options" =
        some (Json.obj [("include_optional_metadata", Json.bool true)]) :=
  ⟨rfl, options_singleton_serializes_to_flag_map _ rfl⟩

/-- C6: serializing a `GetInstitutionRequest` whose options list is empty
encodes the options field as the empty JSON object (a mapping with no keys,
not a list and not an absent field). -/
theorem options_empty_serializes_to_empty_map (r : GetInstitutionRequest)
    (h : r.options = []) :
    ∃ j, serializeGetInstitutionRequest r = .ok j ∧
      j.getField "options" = some (Json.obj []) := by
  refine ⟨_, serializeGetInstitutionRequest_eq r, ?_⟩
  simp [Json.getField, lookupField, h]

theorem options_empty_serializes_to_empty_map_witness :
    (GetInstitutionRequest.mk "ins_1" "client" ⟨"sec"⟩ [⟨"US"⟩] []).options
      = ([] : List InstitutionOption) ∧
    ∃ j, serializeGetInstitutionRequest
        (GetInstitutionRequest.mk "ins_1" "client" ⟨"sec"⟩ [⟨"US"⟩] []) =
        .ok j ∧
      j.getField "options" = some (Json.obj []) :=
  ⟨rfl, options_empty_serializes_to_empty_map _ rfl⟩

/-- C9: `serialize_options` discards each entry's result, so even when
serializing entries fails, no entry error is surfaced: the encoding still
processes every entry and returns the outcome of finalizing the map. -/
theorem serialize_options_ignores_entry_errors (M : MapSer)
    (x : List InstitutionOption) (m : M.St)
    (hm : M.serializeMap x.length = .ok m)
    (_hfail : ∃ o ∈ x, ∀ st, (M.serializeEntry st o true).2 ≠ .ok ()) :
    serialize_options M x = M.endMap (serializeOptionsLoop M m x) := by
  simp [serialize_options, hm]

theorem serialize_options_ignores_entry_errors_witness :
    natCountSer.serializeMap
      ([InstitutionOption.includeOptionalMetadata,
        InstitutionOption.includeStatus].length) = .ok ((0 : Nat)) ∧
    (∃ o ∈ [InstitutionOption.includeOptionalMetadata,
            InstitutionOption.includeStatus],
      ∀ st, (natCountSer.serializeEntry st o true).2 ≠ .ok ()) ∧
    serialize_options natCountSer
        [InstitutionOption.includeOptionalMetadata,
         InstitutionOption.includeStatus] =
      natCountSer.endMap (serializeOptionsLoop natCountSer ((0 : Nat))
        [InstitutionOption.includeOptionalMetadata,
         InstitutionOption.includeStatus]) ∧
    serialize_options natCountSer
        [InstitutionOption.includeOptionalMetadata,
         InstitutionOption.includeStatus] = .ok ((2 : Nat)) :=
  ⟨rfl,
   ⟨InstitutionOption.includeOptionalMetadata, by simp,
    fun st h => Except.noConfusion h⟩,
   serialize_options_ignores_entry_errors natCountSer _ ((0 : Nat)) rfl
     ⟨InstitutionOption.includeOptionalMetadata, by simp,
      fun st h => Except.noConfusion h⟩,
   rfl⟩

/-- C10: `serialize_options` performs no deduplication: the encoded mapping
has exactly one entry per element of the options list, in list order, so a
repeated variant is emitted as a repeated key. -/
theorem serialize_options_no_dedup :
    (∀ x : List InstitutionOption,
      serialize_options jsonMapSer x =
        .ok (Json.obj
          (x.map (fun o => (institutionOptionWireName o, Json.bool true))))) ∧
    serialize_options jsonMapSer
        [InstitutionOption.includeOptionalMetadata,
         InstitutionOption.includeOptionalMetadata] =
      .ok (Json.obj [("include_optional_metadata", Json.bool true),
                     ("include_optional_metadata", Json.bool true)]) :=
  ⟨serialize_options_json, by simp [serialize_options_json,
    institutionOptionWireName]⟩

/-! ## Round-trip lemmas -/

theorem decodeStringElems_map (l : List String) :
    decodeStringElems (l.map Json.str) = .ok l := by
  induction l with
  | nil => rfl
  | cons s rest ih => simp [decodeStringElems, decodeString, ih]

theorem decodeCountryCodeElems_map (l : List CountryCode) :
    decodeCountryCodeElems (l.map fun c => Json.str c.code) = .ok l := by
  induction l with
  | nil => rfl
  | cons c rest ih => simp [decodeCountryCodeElems, decodeCountryCode, ih]

theorem decodeOptString_serialize (o : Option String) :
    decodeOptString (serializeOptString o) = .ok o := by
  cases o <;> rfl

theorem decodeInstitution_serialize (i : Institution) :
    decodeInstitution (serializeInstitution i) = .ok i := by
  simp [serializeInstitution, decodeInstitution, instVisit, InstSlots.init,
    decodeString, decodeStringList, decodeStringElems_map,
    decodeCountryCodeList, decodeCountryCodeElems_map,
    decodeOptString_serialize, decodeBool, instFinish]

/-- C4: for an `Institution` with all optional fields populated, decoding
its serialization yields the original value (decode after encode is the
identity on `Institution`). -/
theorem institution_roundtrip (i : Institution)
    (_hu : i.url.isSome = true) (_hp : i.primary_color.isSome = true)
    (_hl : i.logo.isSome = true) :
    decodeInstitution (serializeInstitution i) = .ok i :=
  decodeInstitution_serialize i

theorem institution_roundtrip_witness :
    (Institution.mk "ins_1" "Bank A" ["auth"] [⟨"US"⟩] (some "https://a.example")
        (some "#112233") (some "bG9nbw==") ["011000015"] true).url.isSome
      = true ∧
    (Institution.mk "ins_1" "Bank A" ["auth"] [⟨"US"⟩] (some "https://a.example")
        (some "#112233") (some "bG9nbw==") ["011000015"]
        true).primary_color.isSome = true ∧
    (Institution.mk "ins_1" "Bank A" ["auth"] [⟨"US"⟩] (some "https://a.example")
        (some "#112233") (some "bG9nbw==") ["011000015"] true).logo.isSome
      = true ∧
    decodeInstitution (serializeInstitution
        (Institution.mk "ins_1" "Bank A" ["auth"] [⟨"US"⟩]
          (some "https://a.example") (some "#112233") (some "bG9nbw==")
          ["011000015"] true)) =
      .ok (Institution.mk "ins_1" "Bank A" ["auth"] [⟨"US"⟩]
        (some "https://a.example") (some "#112233") (some "bG9nbw==")
        ["011000015"] true) :=
  ⟨rfl, rfl, rfl, institution_roundtrip _ rfl rfl rfl⟩

/-- C7: decoding the spec's example payload as a `GetInstitutionResponse`
succeeds, and on the result `.institution().id()` is `"ins_1"` and
`.request_id()` is `"req_1"`. -/
theorem decode_get_institution_example :
    ∃ r, decodeGetInstitutionResponse examplePayload = .ok r ∧
      r.institutionCall.1.idCall.1 = "ins_1" ∧
      r.requestIdCall.1 = "req_1" :=
  ⟨⟨⟨"ins_1", "Bank A", ["auth"], [⟨"US"⟩], none, none, none, [], false⟩,
    "req_1"⟩, rfl, rfl, rfl⟩

/-- C8: every accessor returns a copy equal to the stored field, and the
call leaves the receiver unchanged, so the stored value cannot be reached,
let alone mutated, through the returned copy. -/
theorem accessors_return_copies (i : Institution)
    (r : GetInstitutionResponse) :
    i.idCall = (i.institution_id, i) ∧
    i.nameCall = (i.name, i) ∧
    i.logoCall = (i.logo, i) ∧
    i.urlCall = (i.url, i) ∧
    r.institutionCall = (r.institution, r) ∧
    r.requestIdCall = (r.request_id, r) :=
  ⟨rfl, rfl, rfl, rfl, rfl, rfl⟩

/-! ## Visitor lemmas: unknown fields are skipped, absent fields stay empty -/

theorem listRespVisit_skip (pre rest : List (String × Json)) :
    ∀ st, (∀ kv ∈ pre, kv.1 ≠ "institutions" ∧ kv.1 ≠ "request_id") →
      listRespVisit st (pre ++ rest) = listRespVisit st rest := by
  induction pre with
  | nil => intro st _; rfl
  | cons kv tail ih =>
    intro st h
    obtain ⟨k, v⟩ := kv
    have hk := h (k, v) (List.mem_cons_self _ _)
    have h1 : (k == "institutions") = false := by
      simp [hk.1]
    have h2 : (k == "request_id") = false := by
      simp [hk.2]
    simp only [List.cons_append, listRespVisit, h1, h2, Bool.false_eq_true,
      if_false]
    exact ih st (fun kv hm => h kv (List.mem_cons_of_mem _ hm))

theorem listRespVisit_request_id_eq (entries : List (String × Json)) :
    ∀ st st', (∀ kv ∈ entries, kv.1 ≠ "request_id") →
      listRespVisit st entries = .ok st' → st'.request_id = st.request_id := by
  induction entries with
  | nil =>
    intro st st' _ hvis
    simp only [listRespVisit, Except.ok.injEq] at hvis
    rw [← hvis]
  | cons kv tail ih =>
    intro st st' h hvis
    obtain ⟨k, v⟩ := kv
    have hk : k ≠ "request_id" := (h (k, v) (List.mem_cons_self _ _))
    have htail : ∀ kv ∈ tail, kv.1 ≠ "request_id" :=
      fun kv hm => h kv (List.mem_cons_of_mem _ hm)
    have h2 : (k == "request_id") = false := by simp [hk]
    by_cases h1 : (k == "institutions") = true
    · simp only [listRespVisit, h1, if_true] at hvis
      cases hsi : st.institutions with
      | some l => rw [hsi] at hvis; cases hvis
      | none =>
        cases hd : decodeInstitutionList v with
        | error e => rw [hsi, hd] at hvis; cases hvis
        | ok l =>
          simp only [hsi, hd] at hvis
          have h' := ih _ _ htail hvis
          exact h'
    · simp only [listRespVisit, h1, h2, Bool.false_eq_true, if_false] at hvis
      exact ih _ _ htail hvis

theorem getRespVisit_skip (pre rest : List (String × Json)) :
    ∀ st, (∀ kv ∈ pre, kv.1 ≠ "institution" ∧ kv.1 ≠ "request_id") →
      getRespVisit st (pre ++ rest) = getRespVisit st rest := by
  induction pre with
  | nil => intro st _; rfl
  | cons kv tail ih =>
    intro st h
    obtain ⟨k, v⟩ := kv
    have hk := h (k, v) (List.mem_cons_self _ _)
    have h1 : (k == "institution") = false := by simp [hk.1]
    have h2 : (k == "request_id") = false := by simp [hk.2]
    simp only [List.cons_append, getRespVisit, h1, h2, Bool.false_eq_true,
      if_false]
    exact ih st (fun kv hm => h kv (List.mem_cons_of_mem _ hm))

theorem getRespVisit_request_id_eq (entries : List (String × Json)) :
    ∀ st st', (∀ kv ∈ entries, kv.1 ≠ "request_id") →
      getRespVisit st entries = .ok st' → st'.request_id = st.request_id := by
  induction entries with
  | nil =>
    intro st st' _ hvis
    simp only [getRespVisit, Except.ok.injEq] at hvis
    rw [← hvis]
  | cons kv tail ih =>
    intro st st' h hvis
    obtain ⟨k, v⟩ := kv
    have hk : k ≠ "request_id" := (h (k, v) (List.mem_cons_self _ _))
    have htail : ∀ kv ∈ tail, kv.1 ≠ "request_id" :=
      fun kv hm => h kv (List.mem_cons_of_mem _ hm)
    have h2 : (k == "request_id") = false := by simp [hk]
    by_cases h1 : (k == "institution") = true
    · simp only [getRespVisit, h1, if_true] at hvis
      cases hsi : st.institution with
      | some l => rw [hsi] at hvis; cases hvis
      | none =>
        cases hd : decodeInstitution v with
        | error e => rw [hsi, hd] at hvis; cases hvis
        | ok l =>
          simp only [hsi, hd] at hvis
          have h' := ih _ _ htail hvis
          exact h'
    · simp only [getRespVisit, h1, h2, Bool.false_eq_true, if_false] at hvis
      exact ih _ _ htail hvis

theorem getRespVisit_institution_eq (entries : List (String × Json)) :
    ∀ st st', (∀ kv ∈ entries, kv.1 ≠ "institution") →
      getRespVisit st entries = .ok st' → st'.institution = st.institution := by
  induction entries with
  | nil =>
    intro st st' _ hvis
    simp only [getRespVisit, Except.ok.injEq] at hvis
    rw [← hvis]
  | cons kv tail ih =>
    intro st st' h hvis
    obtain ⟨k, v⟩ := kv
    have hk : k ≠ "institution" := (h (k, v) (List.mem_cons_self _ _))
    have htail : ∀ kv ∈ tail, kv.1 ≠ "institution" :=
      fun kv hm => h kv (List.mem_cons_of_mem _ hm)
    have h1 : (k == "institution") = false := by simp [hk]
    by_cases h2 : (k == "request_id") = true
    · simp only [getRespVisit, h1, h2, Bool.false_eq_true, if_false,
        if_true] at hvis
      cases hsr : st.request_id with
      | some s => rw [hsr] at hvis; cases hvis
      | none =>
        cases hd : decodeString v with
        | error e => rw [hsr, hd] at hvis; cases hvis
        | ok s =>
          simp only [hsr, hd] at hvis
          have h' := ih _ _ htail hvis
          exact h'
    · simp only [getRespVisit, h1, h2, Bool.false_eq_true, if_false] at hvis
      exact ih _ _ htail hvis

/-- Decoding a `ListInstitutionsResponse` from an object with no
`request_id` entry fails. -/
theorem decodeList_no_request_id (entries : List (String × Json))
    (h : ∀ kv ∈ entries, kv.1 ≠ "request_id") :
    ∃ e, decodeListInstitutionsResponse (.obj entries) = .error e := by
  cases hv : listRespVisit ⟨none, none⟩ entries with
  | error e => exact ⟨e, by simp [decodeListInstitutionsResponse, hv]⟩
  | ok st =>
    have hr : st.request_id = none :=
      listRespVisit_request_id_eq entries _ _ h hv
    exact ⟨.missingField "request_id",
      by simp [decodeListInstitutionsResponse, hv, hr]⟩

/-- Decoding a `GetInstitutionResponse` from an object with no
`request_id` entry fails. -/
theorem decodeGet_no_request_id (entries : List (String × Json))
    (h : ∀ kv ∈ entries, kv.1 ≠ "request_id") :
    ∃ e, decodeGetInstitutionResponse (.obj entries) = .error e := by
  cases hv : getRespVisit ⟨none, none⟩ entries with
  | error e => exact ⟨e, by simp [decodeGetInstitutionResponse, hv]⟩
  | ok st =>
    have hr : st.request_id = none :=
      getRespVisit_request_id_eq entries _ _ h hv
    cases hsi : st.institution with
    | none =>
      exact ⟨.missingField "institution",
        by simp [decodeGetInstitutionResponse, hv, hsi]⟩
    | some i =>
      exact ⟨.missingField "request_id",
        by simp [decodeGetInstitutionResponse, hv, hsi, hr]⟩

/-- Decoding a `GetInstitutionResponse` from an object with no
`institution` entry fails. -/
theorem decodeGet_no_institution (entries : List (String × Json))
    (h : ∀ kv ∈ entries, kv.1 ≠ "institution") :
    ∃ e, decodeGetInstitutionResponse (.obj entries) = .error e := by
  cases hv : getRespVisit ⟨none, none⟩ entries with
  | error e => exact ⟨e, by simp [decodeGetInstitutionResponse, hv]⟩
  | ok st =>
    have hi : st.institution = none :=
      getRespVisit_institution_eq entries _ _ h hv
    exact ⟨.missingField "institution",
      by simp [decodeGetInstitutionResponse, hv, hi]⟩

/-- A JSON value without the key `key` either is not an object, or is an
object none of whose entries has that key. -/
theorem hasKey_false_entries (j : Json) (key : String)
    (h : j.hasKey key = false) (entries : List (String × Json))
    (hj : j = .obj entries) : ∀ kv ∈ entries, kv.1 ≠ key := by
  subst hj
  simp only [Json.hasKey, List.any_eq_false, Bool.not_eq_true] at h
  intro kv hm
  have := h kv hm
  simpa using this

/-- C2: a payload in which `request_id` is absent fails to decode as a
`ListInstitutionsResponse` and as a `GetInstitutionResponse`, and a payload
in which `institution` is absent fails to decode as a
`GetInstitutionResponse`; no response value is produced in any case. -/
theorem missing_mandatory_fields_fail_decode (j j' : Json)
    (hreq : j.hasKey "request_id" = false)
    (hinst : j'.hasKey "institution" = false) :
    (∃ e, decodeListInstitutionsResponse j = .error e) ∧
    (∃ e, decodeGetInstitutionResponse j = .error e) ∧
    (∃ e, decodeGetInstitutionResponse j' = .error e) := by
  refine ⟨?_, ?_, ?_⟩
  · cases j with
    | obj entries =>
      exact decodeList_no_request_id entries
        (hasKey_false_entries _ _ hreq entries rfl)
    | null => exact ⟨_, rfl⟩
    | bool b => exact ⟨_, rfl⟩
    | num n => exact ⟨_, rfl⟩
    | str s => exact ⟨_, rfl⟩
    | arr elems => exact ⟨_, rfl⟩
  · cases j with
    | obj entries =>
      exact decodeGet_no_request_id entries
        (hasKey_false_entries _ _ hreq entries rfl)
    | null => exact ⟨_, rfl⟩
    | bool b => exact ⟨_, rfl⟩
    | num n => exact ⟨_, rfl⟩
    | str s => exact ⟨_, rfl⟩
    | arr elems => exact ⟨_, rfl⟩
  · cases j' with
    | obj entries =>
      exact decodeGet_no_institution entries
        (hasKey_false_entries _ _ hinst entries rfl)
    | null => exact ⟨_, rfl⟩
    | bool b => exact ⟨_, rfl⟩
    | num n => exact ⟨_, rfl⟩
    | str s => exact ⟨_, rfl⟩
    | arr elems => exact ⟨_, rfl⟩

theorem missing_mandatory_fields_fail_decode_witness :
    (Json.obj [("institutions", Json.arr [])]).hasKey "request_id" = false ∧
    (Json.obj [("request_id", Json.str "req_1")]).hasKey "institution"
      = false ∧
    ((∃ e, decodeListInstitutionsResponse
        (Json.obj [("institutions", Json.arr [])]) = .error e) ∧
     (∃ e, decodeGetInstitutionResponse
        (Json.obj [("institutions", Json.arr [])]) = .error e) ∧
     (∃ e, decodeGetInstitutionResponse
        (Json.obj [("request_id", Json.str "req_1")]) = .error e)) :=
  ⟨rfl, rfl, missing_mandatory_fields_fail_decode _ _ rfl rfl⟩

/-- C3: a payload with a valid `request_id` string, with no `institutions`
entry, and otherwise only unknown fields decodes as a
`ListInstitutionsResponse` whose institutions sequence is empty. -/
theorem missing_institutions_defaults_empty
    (pre post : List (String × Json)) (s : String)
    (hpre : ∀ kv ∈ pre, kv.1 ≠ "institutions" ∧ kv.1 ≠ "request_id")
    (hpost : ∀ kv ∈ post, kv.1 ≠ "institutions" ∧ kv.1 ≠ "request_id") :
    decodeListInstitutionsResponse
        (.obj (pre ++ ("request_id", Json.str s) :: post)) =
      .ok ⟨[], s⟩ := by
  have hskip := listRespVisit_skip pre (("request_id", Json.str s) :: post)
    ⟨none, none⟩ hpre
  have hpost2 := listRespVisit_skip post [] ⟨none, some s⟩ hpost
  simp only [List.append_nil] at hpost2
  simp [decodeListInstitutionsResponse, hskip, listRespVisit, decodeString,
    hpost2]

/-- C5 (counterexample): decode errors do not identify the response type
being decoded.  Decoding an empty object as a `ListInstitutionsResponse` and
decoding an object holding only a valid `institution` as a
`GetInstitutionResponse` fail with the identical error, whose message is
`missing field ...` and mentions neither type name — so the error cannot
identify which response type was being decoded. -/
theorem decode_error_lacks_type_name_cex :
    decodeListInstitutionsResponse (Json.obj [])
      = .error (.missingField "request_id") ∧
    decodeGetInstitutionResponse
        (Json.obj [("institution", serializeInstitution
          (Institution.mk "i" "n" [] [] none none none [] false))])
      = .error (.missingField "request_id") ∧
    (DecodeError.missingField "request_id").message
      = "missing field `request_id`" ∧
    strContains "missing field `request_id`" "ListInstitutionsResponse"
      = false ∧
    strContains "missing field `request_id`" "GetInstitutionResponse"
      = false :=
  ⟨rfl, rfl, rfl, by decide, by decide⟩

/-- C5 (amended): when a mandatory field is missing, the decode error
identifies the offending field by name in its message (`missing field ...`),
but it does not name the response type being decoded. -/
theorem decode_error_names_field_not_type (entries : List (String × Json))
    (h : ∀ kv ∈ entries, kv.1 ≠ "request_id" ∧ kv.1 ≠ "institutions" ∧
      kv.1 ≠ "institution") :
    decodeListInstitutionsResponse (.obj entries)
      = .error (.missingField "request_id") ∧
    decodeGetInstitutionResponse (.obj entries)
      = .error (.missingField "institution") ∧
    strContains (DecodeError.message (.missingField "request_id"))
      "request_id" = true ∧
    strContains (DecodeError.message (.missingField "institution"))
      "institution" = true ∧
    strContains (DecodeError.message (.missingField "request_id"))
      "ListInstitutionsResponse" = false ∧
    strContains (DecodeError.message (.missingField "institution"))
      "GetInstitutionResponse" = false := by
  have hlist := listRespVisit_skip entries [] ⟨none, none⟩
    (fun kv hm => ⟨(h kv hm).2.1, (h kv hm).1⟩)
  have hget := getRespVisit_skip entries [] ⟨none, none⟩
    (fun kv hm => ⟨(h kv hm).2.2, (h kv hm).1⟩)
  simp only [List.append_nil] at hlist hget
  refine ⟨?_, ?_, by decide, by decide, by decide, by decide⟩
  · simp [decodeListInstitutionsResponse, hlist, listRespVisit]
  · simp [decodeGetInstitutionResponse, hget, getRespVisit]

theorem decode_error_names_field_not_type_witness :
    (∀ kv ∈ [(("x" : String), Json.null)], kv.1 ≠ "request_id" ∧
      kv.1 ≠ "institutions" ∧ kv.1 ≠ "institution") ∧
    (decodeListInstitutionsResponse (.obj [(("x" : String), Json.null)])
      = .error (.missingField "request_id") ∧
    decodeGetInstitutionResponse (.obj [(("x" : String), Json.null)])
      = .error (.missingField "institution") ∧
    strContains (DecodeError.message (.missingField "request_id"))
      "request_id" = true ∧
    strContains (DecodeError.message (.missingField "institution"))
      "institution" = true ∧
    strContains (DecodeError.message (.missingField "request_id"))
      "ListInstitutionsResponse" = false ∧
    strContains (DecodeError.message (.missingField "institution"))
      "GetInstitutionResponse" = false) :=
  ⟨by decide, decode_error_names_field_not_type _ (by decide)⟩

theorem missing_institutions_defaults_empty_witness :
    (∀ kv ∈ [(("client_extra" : String), Json.num 7)],
      kv.1 ≠ "institutions" ∧ kv.1 ≠ "request_id") ∧
    (∀ kv ∈ ([] : List (String × Json)),
      kv.1 ≠ "institutions" ∧ kv.1 ≠ "request_id") ∧
    decodeListInstitutionsResponse
        (.obj ([(("client_extra" : String), Json.num 7)] ++
          ("request_id", Json.str "req_9") :: [])) =
      .ok ⟨[], "req_9"⟩ :=
  ⟨by decide, by decide,
   missing_institutions_defaults_empty _ _ _ (by decide) (by decide)⟩

end PlaidInstitution
